import Mathlib

/-!
Verification of the Matching & Entitlement Engine of the `mbackand` dating
backend (`src/main.py`), shallowly embedded in Lean 4.

Modelling conventions:
* Timestamps are integers counted in days (the only duration in the source is
  `timedelta(days=30)`, modelled as `+ 30`).
* The three relational tables `users`, `likes`, `matches` are lists kept in
  insertion order; the primary keys are modelled by the insert-if-absent
  operations the source performs (`ON CONFLICT DO NOTHING`).
* SQL `NULL` timestamps are `Option Int`; the comparison
  `premium_expires_at < NOW()` is false on `NULL`, as in SQL.
-/

namespace Amigo

/-- A row of the `users` table (schema created in `lifespan`, main.py:180-197). -/
structure UserRow where
  telegram_id : Int
  username : Option String
  first_name : Option String
  name : String
  age : Int
  gender : String
  orientation : String
  country : String
  city : String
  goal : String
  photo : Option String
  bio : Option String
  is_premium : Bool
  premium_expires_at : Option Int
deriving DecidableEq

/-- The `UserProfile` pydantic request model (main.py:42-56).
`is_premium` defaults to `false` in pydantic but a client may supply it. -/
structure UserProfile where
  telegram_id : Int
  username : Option String
  first_name : Option String
  name : String
  age : Int
  gender : String
  orientation : String
  country : String
  city : String
  goal : String
  photo : Option String
  bio : Option String
  is_premium : Bool
deriving DecidableEq

/-- The relational store: `users`, `likes(from_user,to_user)`,
`matches(user_1,user_2)` (main.py:180-209). -/
structure DB where
  users : List UserRow
  likes : List (Int × Int)
  matchesTable : List (Int × Int)
deriving DecidableEq

def emptyDB : DB := ⟨[], [], []⟩

/-- `SELECT ... FROM users WHERE telegram_id = $1` (first matching row). -/
def findUser (s : DB) (uid : Int) : Option UserRow :=
  s.users.find? (fun u => u.telegram_id == uid)

/-- An `UPDATE users ...` statement: apply a per-row function to every row. -/
def mapUsers (f : UserRow → UserRow) (s : DB) : DB :=
  { s with users := s.users.map f }

/-- Per-row effect of `check_and_remove_expired_premium` (main.py:87-91):
`SET is_premium = FALSE, premium_expires_at = NULL WHERE telegram_id = $1 AND
is_premium = TRUE AND premium_expires_at < NOW()`. -/
def expireFix (uid now : Int) (u : UserRow) : UserRow :=
  if u.telegram_id == uid && u.is_premium &&
      (match u.premium_expires_at with
       | some t => decide (t < now)
       | none => false) then
    { u with is_premium := false, premium_expires_at := none }
  else u

/-- `check_and_remove_expired_premium` (main.py:81-93). -/
def check_and_remove_expired_premium (s : DB) (uid now : Int) : DB :=
  mapUsers (expireFix uid now) s

/-- `INSERT INTO likes (from_user, to_user) VALUES ($1,$2) ON CONFLICT DO
NOTHING` (main.py:391). -/
def insertLike (s : DB) (f t : Int) : DB :=
  if (f, t) ∈ s.likes then s else { s with likes := s.likes ++ [(f, t)] }

/-- `INSERT INTO matches (user_1, user_2) VALUES ($1,$2) ON CONFLICT DO
NOTHING` (main.py:394). -/
def insertMatch (s : DB) (a b : Int) : DB :=
  if (a, b) ∈ s.matchesTable then s else { s with matchesTable := s.matchesTable ++ [(a, b)] }

/-- The `/like` endpoint `like_user` (main.py:388-396): insert the directed
like, check the reverse like on the resulting state, and on reciprocity insert
the match row in the direction of this call, returning `is_match`. -/
def like_user (s : DB) (f t : Int) : DB × Bool :=
  let s1 := insertLike s f t
  if (t, f) ∈ s1.likes then (insertMatch s1 f t, true) else (s1, false)

/-- Run a sequence of `/like` requests, discarding the returned flags. -/
def runLikes (s : DB) (ls : List (Int × Int)) : DB :=
  ls.foldl (fun st pr => (like_user st pr.1 pr.2).1) s

/-- The entitlement actually consulted by candidate selection and reflected by
`/me`: reconcile via `check_and_remove_expired_premium`, then read the stored
`is_premium` flag (main.py:334-344, 288-292). -/
def effectivePremium (s : DB) (uid now : Int) : Bool :=
  match findUser (check_and_remove_expired_premium s uid now) uid with
  | some u => u.is_premium
  | none => false

/-- The spec's wording of the Entitlement Resolver contract (§4.1): true iff
`is_premium` is set AND (`premium_expires_at` is null OR
`premium_expires_at > now`). Stated from the spec for comparison with
`effectivePremium`, which is translated from the code. -/
def resolveSpec (u : UserRow) (now : Int) : Bool :=
  u.is_premium &&
    (match u.premium_expires_at with
     | none => true
     | some t => decide (now < t))

/-- Gender target for a `hetero` requester (main.py:356). -/
def oppositeGender (g : String) : String :=
  if g == "male" then "female" else "male"

/-- Orientation compatibility clauses (main.py:354-363). -/
def genderOk (req u : UserRow) : Bool :=
  if req.orientation == "hetero" then u.gender == oppositeGender req.gender
  else if req.orientation == "gay" then u.gender == req.gender
  else true

/-- Premium-gated filter clauses (main.py:366-382). Python truthiness: `None`
and `""` both skip the city/goal clauses. -/
def premiumFiltersOk (city : Option String) (min_age max_age : Int)
    (goal : Option String) (u : UserRow) : Bool :=
  (match city with
   | some c => if c != "" && c != "all" then u.city == c else true
   | none => true) &&
  (if 18 < min_age then decide (min_age ≤ u.age) else true) &&
  (if max_age < 99 then decide (u.age ≤ max_age) else true) &&
  (match goal with
   | some g => if g != "" && g != "all" then u.goal == g else true
   | none => true)

/-- The `/candidates` endpoint `get_candidates` (main.py:326-386): reconcile
expired premium, 404 (`none`) if the requester has no row, then filter and
`LIMIT 20`. -/
def get_candidates (s : DB) (uid now : Int) (city : Option String)
    (min_age max_age : Int) (goal : Option String) : Option (List UserRow) :=
  let s1 := check_and_remove_expired_premium s uid now
  match findUser s1 uid with
  | none => none
  | some req =>
    some ((s1.users.filter (fun u =>
      u.telegram_id != uid &&
      !(decide ((uid, u.telegram_id) ∈ s1.likes)) &&
      genderOk req u &&
      (if req.is_premium then premiumFiltersOk city min_age max_age goal u
       else true))).take 20)

/-- Per-row effect of the `/register` `ON CONFLICT (telegram_id) DO UPDATE`
branch (main.py:277-278): overwrite the demographic fields only. -/
def applyProfileUpdate (p : UserProfile) (u : UserRow) : UserRow :=
  if u.telegram_id == p.telegram_id then
    { u with name := p.name, age := p.age, gender := p.gender,
             orientation := p.orientation, city := p.city, goal := p.goal,
             photo := p.photo, bio := p.bio }
  else u

/-- The row inserted by `/register` for a fresh `telegram_id`
(main.py:274-283): all thirteen supplied columns, including the request's
`is_premium`; `premium_expires_at` is not in the column list, hence `NULL`. -/
def newUserRow (p : UserProfile) : UserRow :=
  { telegram_id := p.telegram_id, username := p.username,
    first_name := p.first_name, name := p.name, age := p.age,
    gender := p.gender, orientation := p.orientation, country := p.country,
    city := p.city, goal := p.goal, photo := p.photo, bio := p.bio,
    is_premium := p.is_premium, premium_expires_at := none }

/-- The `/register` endpoint (main.py:271-284): upsert on `telegram_id`. -/
def register (s : DB) (p : UserProfile) : DB :=
  match findUser s p.telegram_id with
  | some _ => mapUsers (applyProfileUpdate p) s
  | none => { s with users := s.users ++ [newUserRow p] }

/-- Outcome reported to the payer by `process_successful_payment`:
the success message with the new expiry, or the invalid-payment rejection. -/
inductive PayOutcome where
  | accepted : Int → PayOutcome
  | rejected : PayOutcome
deriving DecidableEq

/-- New expiry computation (main.py:142-151): if the row exists, is flagged
premium, has a non-null expiry and that expiry is strictly in the future,
extend it by 30 days; otherwise 30 days from now. -/
def renewExpiry (row : Option UserRow) (now : Int) : Int :=
  match row with
  | some u =>
    match u.premium_expires_at with
    | some t => if u.is_premium && decide (now < t) then t + 30 else now + 30
    | none => now + 30
  | none => now + 30

/-- Per-row effect of the subscription `UPDATE` (main.py:154-157). -/
def setPremium (uid e : Int) (u : UserRow) : UserRow :=
  if u.telegram_id == uid then
    { u with is_premium := true, premium_expires_at := some e }
  else u

/-- The `F.successful_payment` handler `process_successful_payment`
(main.py:117-166). Only `currency == "XTR" && total_amount == 100` is
accepted; the invoice payload is read but never compared. On acceptance the
`UPDATE ... WHERE telegram_id = $2` runs whether or not a row exists, and the
success message is sent unconditionally. -/
def process_successful_payment (s : DB) (uid : Int) (currency : String)
    (total_amount : Int) (_pl : String) (now : Int) : DB × PayOutcome :=
  if currency == "XTR" && total_amount == 100 then
    let e := renewExpiry (findUser s uid) now
    (mapUsers (setPremium uid e) s, PayOutcome.accepted e)
  else (s, PayOutcome.rejected)

/-! ### Sample data used in concrete evaluations -/

/-- A user row with fixed filler demographics. -/
def mkUser (id : Int) (g o c gl : String) (prem : Bool) (e : Option Int) :
    UserRow :=
  { telegram_id := id, username := none, first_name := none, name := "u",
    age := 25, gender := g, orientation := o, country := "C", city := c,
    goal := gl, photo := none, bio := none, is_premium := prem,
    premium_expires_at := e }

/-- Premium user whose expiry is exactly the instant of the query. -/
def c2User : UserRow := mkUser 1 "male" "hetero" "c" "g" true (some 100)

def c2DB : DB := ⟨[c2User], [], []⟩

/-- A single non-premium user. -/
def c6User : UserRow := mkUser 1 "male" "hetero" "c" "g" false none

def c6DB : DB := ⟨[c6User], [], []⟩

/-- Non-premium male/hetero requester 1 with one compatible candidate 2. -/
def c7DB : DB :=
  ⟨[mkUser 1 "male" "hetero" "c" "g" false none,
    mkUser 2 "female" "hetero" "d" "h" false none], [], []⟩

/-- Premium user with expiry day 10 (the spec's renewal example, in days). -/
def c3User : UserRow := mkUser 1 "male" "hetero" "c" "g" true (some 10)

def c3DB : DB := ⟨[c3User], [], []⟩

/-- A registration request that supplies `is_premium = true`. -/
def p9 : UserProfile :=
  { telegram_id := 7, username := none, first_name := none, name := "n",
    age := 20, gender := "male", orientation := "hetero", country := "C",
    city := "c", goal := "g", photo := none, bio := none, is_premium := true }

/-! ### Helper lemmas -/

theorem expireFix_telegram_id (uid now : Int) (u : UserRow) :
    (expireFix uid now u).telegram_id = u.telegram_id := by
  unfold expireFix; split <;> rfl

theorem setPremium_telegram_id (uid e : Int) (u : UserRow) :
    (setPremium uid e u).telegram_id = u.telegram_id := by
  unfold setPremium; split <;> rfl

theorem applyProfileUpdate_telegram_id (p : UserProfile) (u : UserRow) :
    (applyProfileUpdate p u).telegram_id = u.telegram_id := by
  unfold applyProfileUpdate; split <;> rfl

theorem find?_id_map (f : UserRow → UserRow)
    (hf : ∀ u, (f u).telegram_id = u.telegram_id) (l : List UserRow)
    (uid : Int) :
    (l.map f).find? (fun u => u.telegram_id == uid)
      = (l.find? (fun u => u.telegram_id == uid)).map f := by
  induction l with
  | nil => rfl
  | cons a l ih =>
    have h2 : ((f a).telegram_id == uid) = (a.telegram_id == uid) := by
      rw [hf a]
    cases h : a.telegram_id == uid <;>
      simp [List.find?, h2, h, ih]

theorem findUser_mapUsers (f : UserRow → UserRow)
    (hf : ∀ u, (f u).telegram_id = u.telegram_id) (s : DB) (uid : Int) :
    findUser (mapUsers f s) uid = (findUser s uid).map f :=
  find?_id_map f hf s.users uid

theorem findUser_some_id (s : DB) (uid : Int) (u : UserRow)
    (h : findUser s uid = some u) : u.telegram_id = uid := by
  simpa using List.find?_some h

theorem mapUsers_of_absent (f : UserRow → UserRow) (uid : Int)
    (hf : ∀ u, (u.telegram_id == uid) = false → f u = u) (s : DB)
    (h : findUser s uid = none) : mapUsers f s = s := by
  have h2 : ∀ u ∈ s.users, (u.telegram_id == uid) = false := by
    intro u hu
    simpa using List.find?_eq_none.mp h u hu
  have h3 : ∀ (l : List UserRow),
      (∀ u ∈ l, (u.telegram_id == uid) = false) → l.map f = l := by
    intro l
    induction l with
    | nil => intro _; rfl
    | cons a l ih =>
      intro hl
      rw [List.map_cons, hf a (hl a (by simp)),
        ih (fun u hu => hl u (by simp [hu]))]
  unfold mapUsers
  rw [h3 s.users h2]

theorem insertLike_self_mem (s : DB) (f t : Int) :
    (f, t) ∈ (insertLike s f t).likes := by
  unfold insertLike; split
  · assumption
  · simp

theorem insertLike_matchesTable (s : DB) (f t : Int) :
    (insertLike s f t).matchesTable = s.matchesTable := by
  unfold insertLike; split <;> rfl

theorem insertMatch_likes (s : DB) (a b : Int) :
    (insertMatch s a b).likes = s.likes := by
  unfold insertMatch; split <;> rfl

theorem insertMatch_self_mem (s : DB) (a b : Int) :
    (a, b) ∈ (insertMatch s a b).matchesTable := by
  unfold insertMatch; split
  · assumption
  · simp

theorem insertLike_of_mem (s : DB) (f t : Int) (h : (f, t) ∈ s.likes) :
    insertLike s f t = s := by
  unfold insertLike; simp [h]

theorem insertMatch_of_mem (s : DB) (a b : Int)
    (h : (a, b) ∈ s.matchesTable) : insertMatch s a b = s := by
  unfold insertMatch; simp [h]

theorem payment_accepted_eq (s : DB) (uid : Int) (pl : String) (now : Int)
    (u : UserRow)
    (h : findUser s uid = some u) :
    process_successful_payment s uid "XTR" 100 pl now =
      (mapUsers (setPremium uid (renewExpiry (some u) now)) s,
       PayOutcome.accepted (renewExpiry (some u) now)) := by
  unfold process_successful_payment
  rw [h]
  simp

theorem findUser_after_payment (s : DB) (uid : Int) (pl : String) (now : Int)
    (u : UserRow) (h : findUser s uid = some u) :
    findUser (process_successful_payment s uid "XTR" 100 pl now).1 uid
      = some { u with is_premium := true,
                      premium_expires_at := some (renewExpiry (some u) now) } := by
  rw [payment_accepted_eq s uid pl now u h]
  show findUser (mapUsers (setPremium uid (renewExpiry (some u) now)) s) uid = _
  rw [findUser_mapUsers _ (setPremium_telegram_id uid _) s uid, h]
  have hid : (u.telegram_id == uid) = true := by
    simp [findUser_some_id s uid u h]
  show some (setPremium uid (renewExpiry (some u) now) u) = _
  unfold setPremium
  rw [hid]
  simp

/-! ### Claim C1 -/

/-- C1: the claim says that once `like(A,B)` and `like(B,A)` have both run,
the matches table holds exactly one row for the unordered pair `{A,B}`, an
invariant preserved by every operation. The code violates it: from an empty
store, `like(1,2); like(2,1); like(1,2)` leaves the two rows `(2,1)` and
`(1,2)` — the match insert uses the triggering call's direction and the
primary key does not identify `(1,2)` with `(2,1)`. This theorem evaluates
the embedded code on that failing input. -/
theorem C1_duplicate_match_rows :
    (runLikes emptyDB [(1, 2), (2, 1), (1, 2)]).matchesTable
        = [(2, 1), (1, 2)] ∧
    ((runLikes emptyDB [(1, 2), (2, 1), (1, 2)]).matchesTable.filter
        (fun m => m == (1, 2) || m == (2, 1))).length = 2 := by
  decide

/-! ### Claim C4 -/

/-- C4 counterexample: the claim says a second `like(A,B)` is a no-op with the
same `matched` result regardless of interleaved like calls. After the
interleaved `like(2,1)`, the second `like(1,2)` returns `true` where the first
returned `false`, and it inserts a second Match row for the pair. -/
theorem C4_not_idempotent_with_interleaving :
    (like_user emptyDB 1 2).2 = false ∧
    (like_user (runLikes emptyDB [(1, 2), (2, 1)]) 1 2).2 = true ∧
    (like_user (runLikes emptyDB [(1, 2), (2, 1)]) 1 2).1.matchesTable
        = [(2, 1), (1, 2)] := by
  decide

/-- C4 amended: `like(A,B)` called twice in immediate succession (no
intervening calls) is equivalent to calling it once — the second call leaves
the store unchanged, creates no duplicate Like or Match row, and returns the
same `matched` result. -/
theorem C4_like_idempotent_consecutive (s : DB) (f t : Int) :
    like_user (like_user s f t).1 f t = like_user s f t := by
  unfold like_user
  by_cases h : (t, f) ∈ (insertLike s f t).likes
  · simp only [if_pos h]
    have hL : (f, t) ∈ (insertMatch (insertLike s f t) f t).likes := by
      rw [insertMatch_likes]; exact insertLike_self_mem s f t
    have h2 : (t, f) ∈ (insertMatch (insertLike s f t) f t).likes := by
      rw [insertMatch_likes]; exact h
    rw [insertLike_of_mem _ _ _ hL, if_pos h2,
      insertMatch_of_mem _ _ _ (insertMatch_self_mem _ f t)]
  · simp only [if_neg h]
    rw [insertLike_of_mem _ _ _ (insertLike_self_mem s f t), if_neg h]

/-! ### Claim C5 -/

/-- C5 counterexample: the claim says no Like row with equal endpoints is ever
created. The code performs no `from ≠ to` validation: `like(5,5)` on the
empty store creates the Like row `(5,5)`, and — since the reverse-like check
then finds the row just inserted — a self-Match `(5,5)` as well. -/
theorem C5_self_like_created :
    (like_user emptyDB 5 5).1.likes = [(5, 5)] ∧
    (like_user emptyDB 5 5).1.matchesTable = [(5, 5)] ∧
    (like_user emptyDB 5 5).2 = true := by
  decide

/-- C5 amended: `like_user` enforces no `from ≠ to` constraint: in any store
state, `like(x,x)` leaves a Like row `(x,x)` and a Match row `(x,x)` in the
store and reports `matched = true`. -/
theorem C5_no_self_like_guard (s : DB) (x : Int) :
    (x, x) ∈ (like_user s x x).1.likes ∧
    (x, x) ∈ (like_user s x x).1.matchesTable ∧
    (like_user s x x).2 = true := by
  unfold like_user
  have h : (x, x) ∈ (insertLike s x x).likes := insertLike_self_mem s x x
  simp only [if_pos h]
  refine ⟨?_, insertMatch_self_mem _ x x, by trivial⟩
  rw [insertMatch_likes]
  exact h

/-! ### Claim C8 -/

/-- C8 counterexample: the claim says every Match row is stored canonically
with the lower id first (`user_a < user_b`). Running `like(1,2); like(2,1)`
from the empty store leaves the single Match row `(2,1)`, whose first column
is the larger id. -/
theorem C8_noncanonical_match_row :
    (runLikes emptyDB [(1, 2), (2, 1)]).matchesTable = [(2, 1)] ∧
    ¬ ((2 : Int) < 1) := by
  decide

/-- C8 amended: no canonical ordering is enforced: a `like(from,to)` call
either leaves the matches table unchanged or appends exactly the row
`(from, to)` — the direction of the triggering call, whichever it is. -/
theorem C8_match_row_in_call_direction (s : DB) (f t : Int) :
    (like_user s f t).1.matchesTable = s.matchesTable ∨
    (like_user s f t).1.matchesTable = s.matchesTable ++ [(f, t)] := by
  unfold like_user
  by_cases h : (t, f) ∈ (insertLike s f t).likes
  · simp only [if_pos h]
    unfold insertMatch
    split
    · exact Or.inl (insertLike_matchesTable s f t)
    · exact Or.inr (by simp [insertLike_matchesTable s f t])
  · simp only [if_neg h]
    exact Or.inl (insertLike_matchesTable s f t)

/-! ### Claim C2 -/

/-- C2 counterexample: the claim says the effective entitlement is false when
`premium_expires_at` is exactly equal to `now` (spec: true iff
`premium_expires_at > now`). The reconciliation only clears the flag when
`premium_expires_at < NOW()` strictly, so for a user whose expiry equals the
query instant the entitlement consulted by candidate selection is still
`true`, while the spec's `resolve` formula gives `false`. -/
theorem C2_boundary_counterexample :
    effectivePremium c2DB 1 100 = true ∧ resolveSpec c2User 100 = false := by
  decide

/-- C2 amended: for an existing user, the effective entitlement consulted by
candidate selection (reconcile, then read the stored flag) equals
`is_premium AND (premium_expires_at is null OR premium_expires_at ≥ now)` —
i.e. the spec's formula with `>` weakened to `≥` at the boundary. -/
theorem C2_effective_premium_eq (s : DB) (uid now : Int) (u : UserRow)
    (h : findUser s uid = some u) :
    effectivePremium s uid now =
      (u.is_premium &&
        (match u.premium_expires_at with
         | none => true
         | some t => decide (now ≤ t))) := by
  unfold effectivePremium check_and_remove_expired_premium
  rw [findUser_mapUsers _ (expireFix_telegram_id uid now) s uid, h]
  have hid : (u.telegram_id == uid) = true := by
    simp [findUser_some_id s uid u h]
  show (expireFix uid now u).is_premium = _
  unfold expireFix
  cases hp : u.is_premium with
  | false => simp [hid, hp]
  | true =>
    cases he : u.premium_expires_at with
    | none => simp [hid, hp, he]
    | some t =>
      by_cases hlt : t < now
      · have h2 : ¬ (now ≤ t) := by omega
        simp [hid, hp, he, hlt, h2]
      · have h2 : now ≤ t := by omega
        simp [hid, hp, he, hlt, h2]

/-- C2 witness: applying the amended theorem to the concrete boundary store. -/
theorem C2_effective_premium_eq_w : effectivePremium c2DB 1 100 = true := by
  rw [C2_effective_premium_eq c2DB 1 100 c2User (by decide)]
  decide

/-! ### Claim C3 -/

/-- C3: for an existing user, a valid payment (`XTR`, 100) at time `now`
extends a currently-active future expiry `T` to `T + 30` days, and in every
other case (not premium, null expiry, or expiry not in the future) starts a
fresh window `now + 30`; in both cases the stored flag becomes true and the
reported new expiry matches. -/
theorem C3_renew_semantics (s : DB) (uid : Int) (pl : String) (now : Int)
    (u : UserRow) (h : findUser s uid = some u) :
    (∀ T, u.is_premium = true → u.premium_expires_at = some T → now < T →
      (process_successful_payment s uid "XTR" 100 pl now).2
          = PayOutcome.accepted (T + 30) ∧
      findUser (process_successful_payment s uid "XTR" 100 pl now).1 uid
          = some { u with is_premium := true,
                          premium_expires_at := some (T + 30) }) ∧
    ((u.is_premium = false ∨ u.premium_expires_at = none ∨
        (∀ T, u.premium_expires_at = some T → T ≤ now)) →
      (process_successful_payment s uid "XTR" 100 pl now).2
          = PayOutcome.accepted (now + 30) ∧
      findUser (process_successful_payment s uid "XTR" 100 pl now).1 uid
          = some { u with is_premium := true,
                          premium_expires_at := some (now + 30) }) := by
  constructor
  · intro T hp he hT
    have hre : renewExpiry (some u) now = T + 30 := by
      simp [renewExpiry, he, hp, hT]
    constructor
    · rw [payment_accepted_eq s uid pl now u h, hre]
    · rw [findUser_after_payment s uid pl now u h, hre]
  · intro hcase
    have hre : renewExpiry (some u) now = now + 30 := by
      rcases hcase with hp | he | hle
      · cases he : u.premium_expires_at <;> simp [renewExpiry, hp, he]
      · simp [renewExpiry, he]
      · cases he : u.premium_expires_at with
        | none => simp [renewExpiry, he]
        | some t =>
          have h2 : ¬ (now < t) := by have := hle t he; omega
          simp [renewExpiry, he, h2]
    constructor
    · rw [payment_accepted_eq s uid pl now u h, hre]
    · rw [findUser_after_payment s uid pl now u h, hre]

/-- C3 witness: premium user with expiry day 10 pays on day 5 and gets
expiry day 40 (the spec's 2024-01-10 / 2024-01-05 / 2024-02-09 example in
day counts). -/
theorem C3_renew_semantics_w :
    (process_successful_payment c3DB 1 "XTR" 100 "p" 5).2
      = PayOutcome.accepted 40 := by
  have h := (C3_renew_semantics c3DB 1 "p" 5 c3User (by decide)).1 10
    (by decide) (by decide) (by decide)
  rw [h.1]
  decide

/-! ### Claim C6 -/

/-- C6 counterexample: the claim says a payment whose payload does not match
the premium-month product is rejected with no mutation. The handler compares
only currency and amount, never the payload: a payment of 100 XTR carrying an
unrelated payload is accepted and flips the user's `is_premium` to true. -/
theorem C6_payload_not_checked :
    (process_successful_payment c6DB 1 "XTR" 100 "unrelated_payload" 0).2
        = PayOutcome.accepted 30 ∧
    (findUser (process_successful_payment c6DB 1 "XTR" 100
        "unrelated_payload" 0).1 1).map (fun u => u.is_premium)
        = some true ∧
    c6User.is_premium = false := by
  decide

/-- C6 amended: every payment whose currency is not `"XTR"` or whose amount
is not 100 is rejected with no mutation of any state; the payload plays no
role in the decision. -/
theorem C6_rejects_wrong_currency_or_amount (s : DB) (uid : Int)
    (cur : String) (amt : Int) (pl : String) (now : Int)
    (h : cur ≠ "XTR" ∨ amt ≠ 100) :
    process_successful_payment s uid cur amt pl now
      = (s, PayOutcome.rejected) := by
  unfold process_successful_payment
  have hc : (cur == "XTR" && amt == 100) = false := by
    rcases h with h | h <;> simp [h]
  rw [hc]
  simp

/-- C6 witness: the spec's example — a USD payment is rejected and the store
is untouched. -/
theorem C6_rejects_wrong_currency_or_amount_w :
    process_successful_payment c6DB 1 "USD" 100 "premium_month_subscription" 0
      = (c6DB, PayOutcome.rejected) :=
  C6_rejects_wrong_currency_or_amount c6DB 1 "USD" 100
    "premium_month_subscription" 0 (Or.inl (by decide))

/-! ### Claim C7 -/

/-- C7: when the requester's resolved entitlement is not premium, the
city/age/goal filter arguments have no influence on `get_candidates`: any two
calls on the same store and instant that differ only in the filter arguments
return identical results. -/
theorem C7_filters_ignored_nonpremium (s : DB) (uid now : Int)
    (hprem : effectivePremium s uid now = false)
    (c1 : Option String) (a1 b1 : Int) (g1 : Option String)
    (c2 : Option String) (a2 b2 : Int) (g2 : Option String) :
    get_candidates s uid now c1 a1 b1 g1
      = get_candidates s uid now c2 a2 b2 g2 := by
  simp only [get_candidates]
  cases hf : findUser (check_and_remove_expired_premium s uid now) uid with
  | none => rfl
  | some req =>
    have h2 : effectivePremium s uid now = req.is_premium := by
      unfold effectivePremium
      rw [hf]
    have hp : req.is_premium = false := by
      rw [← h2]
      exact hprem
    simp [hp]

/-- C7 witness: a concrete non-premium requester gets the same candidate list
under restrictive filters and under no filters at all. -/
theorem C7_filters_ignored_nonpremium_w :
    get_candidates c7DB 1 0 (some "Z") 30 40 (some "q")
      = get_candidates c7DB 1 0 none 18 99 none :=
  C7_filters_ignored_nonpremium c7DB 1 0 (by decide)
    (some "Z") 30 40 (some "q") none 18 99 none

/-! ### Claim C9 -/

/-- C9 counterexample: the claim says a newly inserted user always gets
`is_premium = false` regardless of the request. The insert passes the
request's `is_premium` value as the thirteenth column: registering a fresh
user whose request carries `is_premium = true` stores the flag as true. -/
theorem C9_new_user_premium_from_request :
    findUser (register emptyDB p9) 7 = some (newUserRow p9) ∧
    (newUserRow p9).is_premium = true := by
  decide

/-- C9 amended: `register` never touches an existing user's subscription
fields, and a newly inserted user gets `premium_expires_at = null` and
`is_premium` equal to the value carried by the request (which defaults to
false only when the client omits it). -/
theorem C9_register_subscription_fields (s : DB) (p : UserProfile) :
    (∀ u, findUser s p.telegram_id = some u →
      ∃ v, findUser (register s p) p.telegram_id = some v ∧
        v.is_premium = u.is_premium ∧
        v.premium_expires_at = u.premium_expires_at) ∧
    (findUser s p.telegram_id = none →
      ∃ v, findUser (register s p) p.telegram_id = some v ∧
        v.is_premium = p.is_premium ∧ v.premium_expires_at = none) := by
  constructor
  · intro u hu
    refine ⟨applyProfileUpdate p u, ?_, ?_, ?_⟩
    · unfold register
      rw [hu]
      show findUser (mapUsers (applyProfileUpdate p) s) p.telegram_id = _
      rw [findUser_mapUsers _ (applyProfileUpdate_telegram_id p) s
        p.telegram_id, hu]
      rfl
    · unfold applyProfileUpdate
      split <;> rfl
    · unfold applyProfileUpdate
      split <;> rfl
  · intro hn
    refine ⟨newUserRow p, ?_, rfl, rfl⟩
    unfold register
    rw [hn]
    show findUser { s with users := s.users ++ [newUserRow p] }
      p.telegram_id = _
    unfold findUser
    rw [List.find?_append]
    have h1 : s.users.find? (fun u => u.telegram_id == p.telegram_id)
        = none := hn
    rw [h1]
    simp [List.find?, newUserRow]

/-- C9 witness: applying the amended theorem's fresh-insert branch to the
concrete request `p9`. -/
theorem C9_register_subscription_fields_w :
    ∃ v, findUser (register emptyDB p9) p9.telegram_id = some v ∧
      v.is_premium = p9.is_premium ∧ v.premium_expires_at = none :=
  (C9_register_subscription_fields emptyDB p9).2 (by decide)

/-! ### Claim C10 -/

/-- C10: a valid payment (`XTR`, 100) for a user id with no profile row
reports success to the payer with a fresh 30-day expiry, yet the store is
left entirely unchanged — the subscription `UPDATE` matches zero rows and no
row is created, so the paid entitlement is silently lost. -/
theorem C10_payment_ghost_user (s : DB) (uid : Int) (pl : String) (now : Int)
    (h : findUser s uid = none) :
    process_successful_payment s uid "XTR" 100 pl now
      = (s, PayOutcome.accepted (now + 30)) := by
  unfold process_successful_payment
  rw [h]
  have hm : mapUsers (setPremium uid (now + 30)) s = s :=
    mapUsers_of_absent _ uid (fun u hu => by simp [setPremium, hu]) s h
  simp [hm, renewExpiry]

/-- C10 witness: paying from the empty store. -/
theorem C10_payment_ghost_user_w :
    process_successful_payment emptyDB 1 "XTR" 100
        "premium_month_subscription" 0
      = (emptyDB, PayOutcome.accepted 30) := by
  have h := C10_payment_ghost_user emptyDB 1 "premium_month_subscription" 0
    (by decide)
  rw [h]
  decide

end Amigo
